import Mathlib

/-!
Shallow embedding of the RTIC firmware in `src/main.rs` (an STM32F1 board with
two shared blink LEDs, a diagnostic green LED, a 4x4 keypad matrix and an
emergency-stop button bound to the EXTI0 interrupt), together with theorems
that settle the specification's claims about it.

Pin levels are embedded as `Bool` with `true` = High and `false` = Low.
-/

namespace KeyBoard

/-- The two shared LED output pins (`#[shared] struct Shared`, src/main.rs:18-22). -/
structure SharedLeds where
  led_red : Bool
  led_blue : Bool
deriving Repr, DecidableEq

/-- Initial shared-LED state from `init` (src/main.rs:51-57): `led_red` on pb12 is
created `with_state(PinState::Low)`, `led_blue` on pb14 `with_state(PinState::High)`. -/
def initShared : SharedLeds := { led_red := false, led_blue := true }

/-- Initial diagnostic green LED from `init` (src/main.rs:59-61): pb13 created
`with_state(PinState::Low)`. -/
def initGreen : Bool := false

/-- Initial blink counter from `init` (src/main.rs:101): `counter: 0`. -/
def initCounter : Nat := 0

/-- `led.toggle()` on a push-pull output pin: invert the level. -/
def toggleLed (b : Bool) : Bool := !b

/-- `ctx.shared.led_red.lock(|led| led.toggle())` (src/main.rs:122 and 134). -/
def toggleRed (s : SharedLeds) : SharedLeds := { s with led_red := toggleLed s.led_red }

/-- `ctx.shared.led_blue.lock(|led| led.toggle())` (src/main.rs:123 and 135). -/
def toggleBlue (s : SharedLeds) : SharedLeds := { s with led_blue := toggleLed s.led_blue }

/-- Effect of task `foo` on the shared LEDs (src/main.rs:122-123): toggle red,
then toggle blue, each inside its own lock. -/
def fooShared (s : SharedLeds) : SharedLeds := toggleBlue (toggleRed s)

/-- Effect of task `bar` on the shared LEDs (src/main.rs:134-135): toggle red,
then toggle blue, each inside its own lock. -/
def barShared (s : SharedLeds) : SharedLeds := toggleBlue (toggleRed s)

/-- Modulus of the `u32` counter type of `Local.counter` (src/main.rs:26). -/
def U32_MOD : Nat := 4294967296

/-- Result of one invocation of task `foo`: the new shared-LED state, the new
local counter, and the payload passed to `bar::spawn_after` (src/main.rs:127). -/
structure FooOut where
  shared : SharedLeds
  counter : Nat
  barPayload : Nat
deriving Repr, DecidableEq

/-- Task `foo` (src/main.rs:118-128): toggle both shared LEDs under their locks,
increment the local `u32` counter (`*ctx.local.counter += 1`, embedded modulo
2^32; the theorems below use the increment only where no overflow occurs, where
the two Rust overflow modes agree), and schedule `bar` after 1 s carrying the
post-increment counter value. -/
def foo (s : SharedLeds) (c : Nat) : FooOut :=
  let s1 := fooShared s
  let c1 := (c + 1) % U32_MOD
  { shared := s1, counter := c1, barPayload := c1 }

/-- Task `bar` (src/main.rs:130-138): receives the counter payload (only
printed), toggles both shared LEDs under their locks, schedules `foo` after 1 s. -/
def bar (s : SharedLeds) (_counter : Nat) : SharedLeds := barShared s

/-- State of the blink pair: the shared LEDs plus foo's local counter. -/
structure BlinkState where
  shared : SharedLeds
  counter : Nat
deriving Repr, DecidableEq

/-- Blink-pair state right after `init` returns. -/
def initBlink : BlinkState := { shared := initShared, counter := initCounter }

/-- One full PhaseA -> PhaseB cycle: run `foo`, then run `bar` on the payload
`foo` scheduled it with. -/
def blinkCycle (b : BlinkState) : BlinkState :=
  let f := foo b.shared b.counter
  { shared := bar f.shared f.barPayload, counter := f.counter }

/-- Blink-pair state after n completed PhaseA -> PhaseB cycles. -/
def blinkCycles : Nat → BlinkState
  | 0 => initBlink
  | n + 1 => blinkCycle (blinkCycles n)

/-- Second (since startup) at which blink invocation k runs. Modelled from the
spec: the RTIC-generated dispatcher is not under src/; per the spec it releases
each scheduled event when its deadline elapses. `init` spawns `foo` with no
delay (src/main.rs:92), and `foo` and `bar` each schedule the other task
1 second later (src/main.rs:127 and 137), so invocation k runs k seconds in. -/
def invocationTime (k : Nat) : Nat := k

/-- Shared-LED state after the first n blink invocations (invocation k is `foo`
when k is even and `bar` when k is odd; both toggle red then blue). -/
def ledsAfter : Nat → SharedLeds
  | 0 => initShared
  | n + 1 => toggleBlue (toggleRed (ledsAfter n))

lemma blinkCycles_counter_mod (n : Nat) : (blinkCycles n).counter = n % U32_MOD := by
  induction n with
  | zero => rfl
  | succ n ih =>
    show (foo (blinkCycles n).shared (blinkCycles n).counter).counter = (n + 1) % U32_MOD
    rw [foo, ih]
    show ((n % U32_MOD) + 1) % U32_MOD = (n + 1) % U32_MOD
    rw [U32_MOD]
    omega

/-- C1: after N completed PhaseA->PhaseB cycles the local counter of `foo`
equals N (the counter is never reset), each invocation of `foo` increments the
counter by exactly 1, and the payload `foo` passes to `bar` when scheduling it
is the counter value current after that increment. -/
theorem blink_counter_correct (n : Nat) (s : SharedLeds) (c : Nat)
    (hn : n < U32_MOD) (hc : c + 1 < U32_MOD) :
    (blinkCycles n).counter = n ∧
    (foo s c).counter = c + 1 ∧
    (foo s c).barPayload = (foo s c).counter := by
  refine ⟨?_, ?_, rfl⟩
  · rw [blinkCycles_counter_mod, Nat.mod_eq_of_lt hn]
  · show (c + 1) % U32_MOD = c + 1
    exact Nat.mod_eq_of_lt hc

/-- Witness for `blink_counter_correct` at n = 2, c = 5. -/
theorem blink_counter_correct_witness :
    (blinkCycles 2).counter = 2 ∧
    (foo initShared 5).counter = 5 + 1 ∧
    (foo initShared 5).barPayload = (foo initShared 5).counter :=
  blink_counter_correct 2 initShared 5 (by decide) (by decide)

/-- C2 counterexample: the claim's initial condition fails on the code.
`init` creates `led_blue` in the High state (src/main.rs:55-57), so the two
shared LEDs are not both off at initialization, and `init` spawns `foo` with no
delay (src/main.rs:92), so the first PhaseA toggle runs at second 0, not after
1 second. -/
theorem c2_init_state_counterexample :
    ¬ (initShared.led_red = false ∧ initShared.led_blue = false ∧
       invocationTime 0 = 1) := by decide

lemma ledsAfter_parity (n : Nat) :
    ledsAfter n = if n % 2 = 0 then initShared
      else { led_red := true, led_blue := false } := by
  induction n with
  | zero => rfl
  | succ n ih =>
    show toggleBlue (toggleRed (ledsAfter n)) = _
    rw [ih]
    by_cases h : n % 2 = 0
    · have h1 : (n + 1) % 2 ≠ 0 := by omega
      simp [h, h1, toggleRed, toggleBlue, toggleLed, initShared]
    · have h1 : (n + 1) % 2 = 0 := by omega
      simp [h, h1, toggleRed, toggleBlue, toggleLed, initShared]

/-- C2 amended: at initialization `led_red` is Low and `led_blue` is High; the
first PhaseA toggle runs immediately at startup (invocation 0 at second 0),
producing (High, Low); thereafter one invocation runs each second, toggling
both LEDs, so the pair alternates between (Low, High) and (High, Low) every
second, the two LEDs always in opposite states. -/
theorem led_trace_correct (n : Nat) :
    invocationTime n = n ∧
    ledsAfter 0 = { led_red := false, led_blue := true } ∧
    ledsAfter n = (if n % 2 = 0 then { led_red := false, led_blue := true }
      else { led_red := true, led_blue := false } : SharedLeds) := by
  refine ⟨rfl, rfl, ?_⟩
  rw [ledsAfter_parity]
  rfl

/-- Effect of the emergency handler on the shared LEDs (src/main.rs:160-161):
`led_blue.lock(|led| led.set_low())`, then `led_red.lock(|led| led.set_low())`. -/
def emergencyShared (s : SharedLeds) : SharedLeds :=
  let s1 : SharedLeds := { s with led_blue := false }
  { s1 with led_red := false }

/-- C10: the two shared LEDs start in opposite states (red Low, blue High), and
every blink-task operation toggles both, so `led_red = NOT led_blue` is
preserved by `foo` and by `bar`; only the emergency handler breaks the
invariant, by forcing both LEDs low. -/
theorem red_blue_opposite_invariant (s : SharedLeds)
    (h : s.led_red = !s.led_blue) :
    initShared.led_red = !initShared.led_blue ∧
    (fooShared s).led_red = !(fooShared s).led_blue ∧
    (barShared s).led_red = !(barShared s).led_blue ∧
    (emergencyShared s).led_red = false ∧
    (emergencyShared s).led_blue = false ∧
    ¬ ((emergencyShared s).led_red = !(emergencyShared s).led_blue) := by
  refine ⟨rfl, ?_, ?_, rfl, rfl, by simp [emergencyShared]⟩
  · show (!s.led_red) = !(!s.led_blue)
    rw [h]
  · show (!s.led_red) = !(!s.led_blue)
    rw [h]

/-- Witness for `red_blue_opposite_invariant` at the initial shared state. -/
theorem red_blue_opposite_invariant_witness :
    (fooShared initShared).led_red = !(fooShared initShared).led_blue :=
  (red_blue_opposite_invariant initShared rfl).2.1

/-- The primitive statements of the `emergency_stop` body (src/main.rs:155-167),
in source order, before its final `loop {}`. -/
inductive EmAction
  | toggleGreenLed
  | printLog
  | lockSetLowBlue
  | lockSetLowRed
  | clearInterruptPending
deriving Repr, DecidableEq

/-- Body of `emergency_stop` before the final `loop {}` (src/main.rs:157-163):
toggle pb13, print, set pb14 low under lock, set pb12 low under lock, clear the
EXTI0 interrupt-pending bit. -/
def emergencyActions : List EmAction :=
  [ EmAction.toggleGreenLed, EmAction.printLog, EmAction.lockSetLowBlue,
    EmAction.lockSetLowRed, EmAction.clearInterruptPending ]

/-- State touched by the emergency handler: the shared LEDs, the diagnostic
green LED, and the EXTI0 interrupt-pending flag. -/
structure EmState where
  shared : SharedLeds
  led_green : Bool
  pending : Bool
deriving Repr, DecidableEq

/-- Effect of one `emergency_stop` statement on the handler-visible state. -/
def runEmAction (s : EmState) : EmAction → EmState
  | EmAction.toggleGreenLed => { s with led_green := toggleLed s.led_green }
  | EmAction.printLog => s
  | EmAction.lockSetLowBlue => { s with shared := { s.shared with led_blue := false } }
  | EmAction.lockSetLowRed => { s with shared := { s.shared with led_red := false } }
  | EmAction.clearInterruptPending => { s with pending := false }

/-- Cumulative effect of the `emergency_stop` body up to its final `loop {}`. -/
def runEmergency (s : EmState) : EmState := emergencyActions.foldl runEmAction s

/-- C3: the emergency handler toggles the diagnostic green LED exactly once,
forces both shared LEDs (red and blue) to Low, clears the interrupt-pending
flag, and the clear of the pending flag is the last statement before the halt
loop, so no spurious re-trigger can occur. -/
theorem emergency_stop_spec (s : EmState) :
    emergencyActions.count EmAction.toggleGreenLed = 1 ∧
    (runEmergency s).shared.led_red = false ∧
    (runEmergency s).shared.led_blue = false ∧
    (runEmergency s).led_green = !s.led_green ∧
    (runEmergency s).pending = false ∧
    emergencyActions.getLast? = some EmAction.clearInterruptPending :=
  ⟨by decide, rfl, rfl, rfl, rfl, by decide⟩

/-- The tasks registered with the RTIC application (src/main.rs:118, 130, 140,
155). -/
inductive Task
  | foo
  | bar
  | keyListener
  | emergencyStop
deriving Repr, DecidableEq

/-- Declared task priorities: `priority = 3` on `foo` (src/main.rs:118),
`priority = 3` on `bar` (src/main.rs:130), `priority = 1` on `key_listener`
(src/main.rs:140), `priority = 6` on `emergency_stop` (src/main.rs:155). -/
def priority : Task → Nat
  | Task.foo => 3
  | Task.bar => 3
  | Task.keyListener => 1
  | Task.emergencyStop => 6

/-- C7: the emergency-stop handler has strictly the highest priority of the
four registered tasks, `foo` and `bar` have equal priority below it, and the
keypad scan task has strictly the lowest priority. -/
theorem priority_ordering :
    priority Task.foo < priority Task.emergencyStop ∧
    priority Task.bar < priority Task.emergencyStop ∧
    priority Task.keyListener < priority Task.emergencyStop ∧
    priority Task.foo = priority Task.bar ∧
    priority Task.keyListener < priority Task.foo ∧
    priority Task.keyListener < priority Task.bar := by decide

/-- How a mutation of a shared LED resource is performed in the source: inside
a `.lock(|led| ...)` closure, or as a plain direct mutation with no lock call. -/
inductive LedAccess
  | viaLock
  | direct
deriving Repr, DecidableEq

/-- Shared-LED mutations of `foo` (src/main.rs:122-123): both are
`ctx.shared.*.lock(|led| led.toggle())`. -/
def fooSharedAccesses : List LedAccess := [LedAccess.viaLock, LedAccess.viaLock]

/-- Shared-LED mutations of `bar` (src/main.rs:134-135): both are
`ctx.shared.*.lock(|led| led.toggle())`. -/
def barSharedAccesses : List LedAccess := [LedAccess.viaLock, LedAccess.viaLock]

/-- Shared-LED mutations of `emergency_stop` (src/main.rs:160-161): both are
`ctx.shared.*.lock(|led| led.set_low())`. -/
def emergencySharedAccesses : List LedAccess := [LedAccess.viaLock, LedAccess.viaLock]

/-- C5 counterexample: the emergency handler does not mutate the shared LEDs
outside the lock operation; both of its shared-LED mutations (src/main.rs:
160-161) go through the same `.lock(...)` call the blink pair uses, so the
claim that it bypasses the lock-acquire/release sequence fails on the code. -/
theorem emergency_uses_lock_counterexample :
    emergencySharedAccesses = [LedAccess.viaLock, LedAccess.viaLock] ∧
    LedAccess.viaLock ≠ LedAccess.direct := by decide

/-- C5 amended: the emergency handler mutates the two shared LEDs through the
same lock-acquire/release operation (`.lock(...)`) the blink pair uses for
every shared-LED access — its access list is identical to `foo`'s and `bar`'s
and contains no direct (lock-free) mutation — while its priority is strictly
above the blink pair's, so the lock excludes no concurrent mutator at its
level. -/
theorem emergency_lock_usage :
    emergencySharedAccesses = fooSharedAccesses ∧
    emergencySharedAccesses = barSharedAccesses ∧
    emergencySharedAccesses.all (fun a => a == LedAccess.viaLock) = true ∧
    priority Task.foo < priority Task.emergencyStop := by decide

/-- Whole-system state for the dispatcher model: the shared LEDs, the green
LED, foo's counter, whether the core is halted in the emergency handler's
permanent loop, and the log of tasks that have run. -/
structure SysState where
  shared : SharedLeds
  led_green : Bool
  counter : Nat
  halted : Bool
  ran : List Task
deriving Repr, DecidableEq

/-- Modelled from the spec: the single-core priority dispatcher generated by
the `rtic::app` macro is not under src/. Per the spec, the dispatcher runs each
released task's body to completion, and once the emergency handler enters its
permanent `loop {}` the core never resumes the dispatcher, so no task ever runs
again: dispatching any event on a halted core runs nothing and changes nothing.
On a live core each task runs its src/main.rs body (`key_listener` touches only
its own column/row pins, so here it only logs that it ran). -/
def dispatch (s : SysState) (t : Task) : SysState :=
  if s.halted then s
  else
    match t with
    | Task.foo =>
        let f := foo s.shared s.counter
        { s with shared := f.shared, counter := f.counter, ran := s.ran ++ [Task.foo] }
    | Task.bar =>
        { s with shared := barShared s.shared, ran := s.ran ++ [Task.bar] }
    | Task.keyListener =>
        { s with ran := s.ran ++ [Task.keyListener] }
    | Task.emergencyStop =>
        { s with shared := emergencyShared s.shared,
                 led_green := toggleLed s.led_green,
                 halted := true,
                 ran := s.ran ++ [Task.emergencyStop] }

/-- Dispatch a sequence of released events in order. -/
def dispatchAll (s : SysState) (ts : List Task) : SysState := ts.foldl dispatch s

lemma dispatch_halted (s : SysState) (t : Task) (h : s.halted = true) :
    dispatch s t = s := by
  rw [dispatch.eq_def, if_pos h]

lemma dispatchAll_halted (s : SysState) (ts : List Task) (h : s.halted = true) :
    dispatchAll s ts = s := by
  induction ts with
  | nil => rfl
  | cons t ts ih =>
    show dispatchAll (dispatch s t) ts = s
    rw [dispatch_halted s t h, ih]

/-- C4: once the emergency handler has been triggered the core is halted for
good: after dispatching `emergencyStop` the halted flag is set, and dispatching
any further sequence of scheduled events leaves the whole system state
unchanged — no task runs again (the run log is fixed) and no scheduled blink
event has any observable effect on the LED state. -/
theorem emergency_terminal (s : SysState) (ts : List Task) :
    (dispatch s Task.emergencyStop).halted = true ∧
    dispatchAll (dispatch s Task.emergencyStop) ts = dispatch s Task.emergencyStop := by
  have hh : (dispatch s Task.emergencyStop).halted = true := by
    by_cases h : s.halted = true
    · rw [dispatch_halted s Task.emergencyStop h]
      exact h
    · have h0 : s.halted = false := by
        cases hb : s.halted
        · rfl
        · exact absurd hb h
      simp [dispatch.eq_def, h0]
  exact ⟨hh, dispatchAll_halted _ ts hh⟩

/-- The places in src/main.rs where a task is scheduled. `init` is not itself a
registered task, so the caller gets its own type. -/
inductive Caller
  | init
  | foo
  | bar
deriving Repr, DecidableEq

/-- One scheduling call in the source: who calls, which task is spawned, and
whether the returned Result is consumed with `.unwrap()`. -/
structure SpawnCall where
  caller : Caller
  target : Task
  unwrapped : Bool
deriving Repr, DecidableEq

/-- All scheduling calls in src/main.rs: `foo::spawn().unwrap()` (line 92) and
`key_listener::spawn().unwrap()` (line 93) in `init`,
`bar::spawn_after(...).unwrap()` in `foo` (line 127), and
`foo::spawn_after(...).unwrap()` in `bar` (line 137). -/
def spawnCalls : List SpawnCall :=
  [ { caller := Caller.init, target := Task.foo, unwrapped := true },
    { caller := Caller.init, target := Task.keyListener, unwrapped := true },
    { caller := Caller.foo, target := Task.bar, unwrapped := true },
    { caller := Caller.bar, target := Task.foo, unwrapped := true } ]

/-- Modelled from the spec: the scheduling queue behind `spawn` and
`spawn_after` is RTIC runtime code, not under src/. Per the spec it holds
pending entries up to a fixed capacity; a scheduling call fails exactly when
the capacity is exhausted. -/
structure SchedQueue where
  pending : List Task
  capacity : Nat
deriving Repr, DecidableEq

/-- Result of a `spawn` / `spawn_after` call: `Ok` with the grown queue, or
`Err` when the queue capacity is exhausted. -/
inductive SpawnResult
  | ok (q : SchedQueue)
  | err
deriving Repr, DecidableEq

/-- A `spawn` / `spawn_after` call against the scheduling queue. -/
def trySpawn (q : SchedQueue) (t : Task) : SpawnResult :=
  if q.pending.length < q.capacity
  then SpawnResult.ok { pending := q.pending ++ [t], capacity := q.capacity }
  else SpawnResult.err

/-- Outcome of `spawn(...).unwrap()`: on `Ok` execution continues with the
grown queue; on `Err` the `.unwrap()` panics, and with `panic_halt` as the
panic handler (src/main.rs:4) a panic halts the system. -/
inductive UnwrapOutcome
  | continued (q : SchedQueue)
  | haltedSystem
deriving Repr, DecidableEq

/-- `spawn(...).unwrap()` as performed at every scheduling call site. -/
def spawnUnwrap (q : SchedQueue) (t : Task) : UnwrapOutcome :=
  match trySpawn q t with
  | SpawnResult.ok q1 => UnwrapOutcome.continued q1
  | SpawnResult.err => UnwrapOutcome.haltedSystem

/-- C8: every scheduling call in the source consumes its Result with
`.unwrap()`; under the precondition that queue capacity is not exhausted the
error branch is unreachable (the call returns `Ok` and execution continues),
and if capacity were exhausted the `.unwrap()` panic halts the system rather
than recovering or retrying. -/
theorem spawn_unwrap_spec (q : SchedQueue) (t : Task) :
    spawnCalls.all (fun c => c.unwrapped) = true ∧
    (q.pending.length < q.capacity →
      trySpawn q t = SpawnResult.ok { pending := q.pending ++ [t], capacity := q.capacity } ∧
      spawnUnwrap q t
        = UnwrapOutcome.continued { pending := q.pending ++ [t], capacity := q.capacity }) ∧
    (q.capacity ≤ q.pending.length → spawnUnwrap q t = UnwrapOutcome.haltedSystem) := by
  refine ⟨by decide, ?_, ?_⟩
  · intro h
    rw [trySpawn, if_pos h]
    exact ⟨rfl, by rw [spawnUnwrap, trySpawn, if_pos h]⟩
  · intro h
    rw [spawnUnwrap, trySpawn, if_neg (Nat.not_lt.mpr h)]

/-- Witness for `spawn_unwrap_spec`: a queue with headroom accepts the spawn
and execution continues; a full queue makes the unwrap halt the system. -/
theorem spawn_unwrap_spec_witness :
    spawnUnwrap { pending := [], capacity := 1 } Task.foo
      = UnwrapOutcome.continued { pending := [Task.foo], capacity := 1 } ∧
    spawnUnwrap { pending := [Task.foo], capacity := 1 } Task.bar
      = UnwrapOutcome.haltedSystem :=
  ⟨((spawn_unwrap_spec { pending := [], capacity := 1 } Task.foo).2.1 (by decide)).2,
   (spawn_unwrap_spec { pending := [Task.foo], capacity := 1 } Task.bar).2.2 (by decide)⟩

/-- Levels of the four keypad column output pins (pa0-pa3, src/main.rs:73-78). -/
abbrev ColLevels := Fin 4 → Bool

/-- The keypad-matrix environment: what each of the four row input pins
(pa4-pa7, pull-down, src/main.rs:80-85) reads, as a function of the current
column output levels. This is the embedding of `key_rows[j].is_high()`. -/
abbrev KeyEnv := ColLevels → Fin 4 → Bool

/-- Column indices visited by the outer loop `for i in 0..key_columns.len()`
(src/main.rs:143), in order. -/
def colOrder : List (Fin 4) := [0, 1, 2, 3]

/-- Row indices visited by the inner loop `for j in 0..key_rows.len()`
(src/main.rs:145), in order. -/
def rowOrder : List (Fin 4) := [0, 1, 2, 3]

/-- State of the keypad scan: the column output levels and the log of reported
(column, row) events, in report order. -/
structure ScanState where
  cols : ColLevels
  log : List (Fin 4 × Fin 4)

/-- Keypad state when `key_listener` starts: the column pins were created with
`into_push_pull_output` (src/main.rs:74-77), whose initial state is Low, and
nothing has been reported. -/
def initScan : ScanState := { cols := fun _ => false, log := [] }

/-- One iteration of the outer loop of `key_listener` (src/main.rs:143-151):
`key_columns[i].set_high()`, then for each row j in order report `(i, j)` if
`key_rows[j].is_high()`, then `key_columns[i].set_low()`. -/
def scanColumn (env : KeyEnv) (s : ScanState) (i : Fin 4) : ScanState :=
  let colsHigh := Function.update s.cols i true
  let events := rowOrder.filterMap fun j =>
    if env colsHigh j then some (i, j) else none
  { cols := Function.update colsHigh i false, log := s.log ++ events }

/-- One full pass of the scan loop: the four columns in order. -/
def scanPass (env : KeyEnv) (s : ScanState) : ScanState :=
  colOrder.foldl (scanColumn env) s

/-- Keypad state after n passes of the unbounded `loop` of `key_listener`
(src/main.rs:142-152); the loop has no break or return, so pass n + 1 always
follows pass n. -/
def keyListenerRun (env : KeyEnv) : Nat → ScanState
  | 0 => initScan
  | n + 1 => scanPass env (keyListenerRun env n)

/-- Column levels with exactly column i driven high. -/
def onlyCol (i : Fin 4) : ColLevels := Function.update (fun _ => false) i true

/-- The events a pass reports for column i: those rows that read high while
exactly column i is driven high. -/
def colEvents (env : KeyEnv) (i : Fin 4) : List (Fin 4 × Fin 4) :=
  rowOrder.filterMap fun j => if env (onlyCol i) j then some (i, j) else none

/-- All events one pass reports, column 0 through column 3. -/
def passEvents (env : KeyEnv) : List (Fin 4 × Fin 4) :=
  colEvents env 0 ++ colEvents env 1 ++ colEvents env 2 ++ colEvents env 3

lemma update_true_false_restore (f : Fin 4 → Bool) (i : Fin 4) (h : f i = false) :
    Function.update (Function.update f i true) i false = f := by
  rw [Function.update_idem, ← h, Function.update_eq_self]

lemma scanColumn_allFalse (env : KeyEnv) (lg : List (Fin 4 × Fin 4)) (i : Fin 4) :
    scanColumn env { cols := fun _ => false, log := lg } i
      = { cols := fun _ => false, log := lg ++ colEvents env i } := by
  rw [scanColumn]
  have hc : Function.update (Function.update (fun _ : Fin 4 => false) i true) i false
      = fun _ : Fin 4 => false :=
    update_true_false_restore (fun _ => false) i rfl
  rw [hc]
  rfl

lemma scanPass_allFalse (env : KeyEnv) (lg : List (Fin 4 × Fin 4)) :
    scanPass env { cols := fun _ => false, log := lg }
      = { cols := fun _ => false, log := lg ++ passEvents env } := by
  show scanColumn env (scanColumn env (scanColumn env
      (scanColumn env { cols := fun _ => false, log := lg } 0) 1) 2) 3 = _
  rw [scanColumn_allFalse, scanColumn_allFalse, scanColumn_allFalse,
    scanColumn_allFalse]
  simp [passEvents, List.append_assoc]

lemma keyListenerRun_cols_false (env : KeyEnv) (n : Nat) :
    (keyListenerRun env n).cols = fun _ => false := by
  induction n with
  | zero => rfl
  | succ n ih =>
    show (scanPass env (keyListenerRun env n)).cols = _
    have h : keyListenerRun env n
        = { cols := fun _ => false, log := (keyListenerRun env n).log } := by
      rw [← ih]
    rw [h, scanPass_allFalse]

lemma mem_rowOrder (j : Fin 4) : j ∈ rowOrder := by
  fin_cases j <;> decide

lemma mem_colEvents (env : KeyEnv) (i k j : Fin 4) :
    ((k, j) ∈ colEvents env i) ↔ (k = i ∧ env (onlyCol i) j = true) := by
  rw [colEvents]
  rw [List.mem_filterMap]
  constructor
  · rintro ⟨a, _, hfa⟩
    by_cases h : env (onlyCol i) a = true
    · rw [if_pos h] at hfa
      have hp : (i, a) = (k, j) := Option.some.inj hfa
      have h1 : i = k := congrArg Prod.fst hp
      have h2 : a = j := congrArg Prod.snd hp
      subst h1
      subst h2
      exact ⟨rfl, h⟩
    · rw [if_neg h] at hfa
      exact absurd hfa (by simp)
  · rintro ⟨rfl, h⟩
    exact ⟨j, mem_rowOrder j, by rw [if_pos h]⟩

lemma fin4_eq_cases (i : Fin 4) : i = 0 ∨ i = 1 ∨ i = 2 ∨ i = 3 := by
  fin_cases i
  · exact Or.inl rfl
  · exact Or.inr (Or.inl rfl)
  · exact Or.inr (Or.inr (Or.inl rfl))
  · exact Or.inr (Or.inr (Or.inr rfl))

lemma mem_passEvents (env : KeyEnv) (i j : Fin 4) :
    ((i, j) ∈ passEvents env) ↔ env (onlyCol i) j = true := by
  rw [passEvents]
  constructor
  · intro hm
    rcases List.mem_append.mp hm with hm1 | hm1
    · rcases List.mem_append.mp hm1 with hm2 | hm2
      · rcases List.mem_append.mp hm2 with hm3 | hm3
        · obtain ⟨hik, h⟩ := (mem_colEvents env 0 i j).mp hm3
          rw [hik]; exact h
        · obtain ⟨hik, h⟩ := (mem_colEvents env 1 i j).mp hm3
          rw [hik]; exact h
      · obtain ⟨hik, h⟩ := (mem_colEvents env 2 i j).mp hm2
        rw [hik]; exact h
    · obtain ⟨hik, h⟩ := (mem_colEvents env 3 i j).mp hm1
      rw [hik]; exact h
  · intro h
    rcases fin4_eq_cases i with rfl | rfl | rfl | rfl
    · exact List.mem_append.mpr (Or.inl (List.mem_append.mpr (Or.inl
        (List.mem_append.mpr (Or.inl ((mem_colEvents env 0 0 j).mpr ⟨rfl, h⟩))))))
    · exact List.mem_append.mpr (Or.inl (List.mem_append.mpr (Or.inl
        (List.mem_append.mpr (Or.inr ((mem_colEvents env 1 1 j).mpr ⟨rfl, h⟩))))))
    · exact List.mem_append.mpr (Or.inl (List.mem_append.mpr (Or.inr
        ((mem_colEvents env 2 2 j).mpr ⟨rfl, h⟩))))
    · exact List.mem_append.mpr (Or.inr ((mem_colEvents env 3 3 j).mpr ⟨rfl, h⟩))

/-- C6: the keypad scan is an unbounded loop (pass n + 1 always follows pass n,
applying the same pass body); each pass visits columns 0, 1, 2, 3 in that
order, and for each column drives it high, samples the four rows in index
order, reports (column, row) exactly for the rows that read high while that
column is high, and drives the column low again before the next column (so at
every pass boundary all columns are low, and during column i's sampling only
column i is high). -/
theorem key_listener_spec (env : KeyEnv) (n : Nat) (i j : Fin 4) :
    (keyListenerRun env n).cols i = false ∧
    keyListenerRun env (n + 1) = scanPass env (keyListenerRun env n) ∧
    scanPass env (keyListenerRun env n)
      = scanColumn env (scanColumn env (scanColumn env
          (scanColumn env (keyListenerRun env n) 0) 1) 2) 3 ∧
    (keyListenerRun env (n + 1)).log
      = (keyListenerRun env n).log ++ passEvents env ∧
    ((i, j) ∈ passEvents env ↔ env (onlyCol i) j = true) := by
  refine ⟨congrFun (keyListenerRun_cols_false env n) i, rfl, rfl, ?_,
    mem_passEvents env i j⟩
  show (scanPass env (keyListenerRun env n)).log = _
  have h : keyListenerRun env n
      = { cols := fun _ => false, log := (keyListenerRun env n).log } := by
    rw [← keyListenerRun_cols_false env n]
  rw [h, scanPass_allFalse]

end KeyBoard
